import Mathlib

/-!
Verification of the `ply` patch-management system (matiu2/ply).

The repository ships one source file, `src/plypatch/cli.py` (the CLI
dispatch layer).  The synchronization engine it drives (`WorkingRepo`,
`PatchRepo` in the `plypatch` package) is not part of the sources, so the
engine is modelled here from the specification (each such definition says
so in its doc comment), while the CLI layer is embedded directly from
`cli.py`.
-/

/-- The failure kinds of the error taxonomy (spec §7). -/
inductive ExcKind where
  | AlreadyLinked
  | NotLinked
  | UncommittedChanges
  | NoPatchesApplied
  | PatchNotFound
  | PatchDidNotApplyCleanly
  | InconsistentRepo
  | RepoAlreadyInit
  deriving DecidableEq, Repr

/-- Modelled from the spec (§3, `plypatch` engine is not under the sources):
a Patch is a named diff with an optional path filter and a set of
dependency names used only for graph rendering. -/
structure Patch where
  name : String
  content : String
  pathFilter : Option String
  depends_on : List String
  deriving DecidableEq, Repr

/-- Modelled from the spec (§3, `plypatch.WorkingRepo` is not under the
sources): the persisted state of a working-repo plus the engine's
dirty-tree observation.  `link_target` is the link record (absent =
unlinked), `applied_count` the number of leading series patches applied,
`conflictMarker` records a restore stopped mid-series, `dirty` is the
version-control engine's `is_dirty()` answer for the tree, `quiet` the
transient verbosity flag. -/
structure WorkingRepo where
  link_target : Option String
  applied_count : Nat
  conflictMarker : Bool
  dirty : Bool
  quiet : Bool
  deriving DecidableEq, Repr

/-- Modelled from the spec (§3): the combined persisted state an operation
can mutate — the working-repo fields and the patch-repo's ordered series
(patch files and manifest move together in the model). -/
structure PlyState where
  workingRepo : WorkingRepo
  series : List Patch
  deriving DecidableEq, Repr

/-- Result of one engine operation: success with the new state, or a named
failure carrying the state the operation left behind. -/
inductive OpResult where
  | ok (st : PlyState)
  | err (kind : ExcKind) (st : PlyState)
  deriving DecidableEq, Repr

/-- The three structural states of the working-repo state machine
(spec §4.2). -/
inductive MachineState where
  | UNLINKED
  | CLEAN
  | CONFLICT
  deriving DecidableEq, Repr

/-- Modelled from the spec (§4.2, `plypatch.WorkingRepo` is not under the
sources): the structural state — unlinked when no link record exists,
conflict when a restore stopped mid-series, clean otherwise. -/
def WorkingRepo.machineState (w : WorkingRepo) : MachineState :=
  match w.link_target with
  | none => .UNLINKED
  | some _ => if w.conflictMarker then .CONFLICT else .CLEAN

/-- Modelled from the spec (§3/§4.2, `plypatch.WorkingRepo.status` is not
under the sources): the reportable status label, one of the four listed in
the spec; the two CLEAN sub-states are distinguished by `applied_count`
for reporting only. -/
def WorkingRepo.status (w : WorkingRepo) : String :=
  match w.link_target with
  | none => "unlinked"
  | some _ =>
    if w.conflictMarker then "restore-in-progress"
    else if w.applied_count = 0 then "clean-no-patches"
    else "clean-all-applied"

/-- Structured consistency report of a patch-repo (spec §4.1 `check()`).
`inconsistent` carries the two error classes: `missing_file` (named in
Series, no file on disk; key `no_file` in the CLI) and `orphan_file` (file
on disk, not named in Series; key `no_series_entry` in the CLI). -/
inductive CheckReport where
  | ok
  | inconsistent (missing_file : List String) (orphan_file : List String)
  deriving DecidableEq, Repr

/-- Modelled from the spec (§4.1, `plypatch` engine is not under the
sources): `check()` cross-references the Series names against the
directory listing; read-only. -/
def check_patch_repo (series files : List String) : CheckReport :=
  let missing := series.filter (fun n => !files.contains n)
  let orphan := files.filter (fun f => !series.contains f)
  if missing = [] ∧ orphan = [] then .ok else .inconsistent missing orphan

/-- Modelled from the spec (§4.1, `plypatch.PatchRepo` is not under the
sources): the dependency edges of the patch set — one edge per
(patch, dependency) pair taken from each Patch's `depends_on` list. -/
def dependencyEdges (patches : List Patch) : List (String × String) :=
  patches.flatMap (fun p => p.depends_on.map (fun d => (p.name, d)))

/-- Modelled from the spec (§4.1,
`plypatch.PatchRepo.patch_dependency_dot_graph` is not under the sources):
renders the dependency graph in DOT format — one node line per patch name,
one edge line per dependency; no cycle detection is performed. -/
def patch_dependency_dot_graph (patches : List Patch) : String :=
  let nodeLines := patches.map (fun p => "  \"" ++ p.name ++ "\";\n")
  let edgeLines := (dependencyEdges patches).map
    (fun e => "  \"" ++ e.1 ++ "\" -> \"" ++ e.2 ++ "\";\n")
  "digraph patches \x7b\n" ++ String.join nodeLines ++ String.join edgeLines ++ "\x7d\n"

/-- Modelled from the spec (§4.2, `plypatch.WorkingRepo.link` is not under
the sources): establish the link record; fails with `AlreadyLinked` when a
link record already exists, whatever path it holds. -/
def WorkingRepo.link (path : String) (st : PlyState) : OpResult :=
  match st.workingRepo.link_target with
  | some _ => .err .AlreadyLinked st
  | none =>
    .ok { st with workingRepo := { st.workingRepo with link_target := some path } }

/-- Modelled from the spec (§4.2, `plypatch.WorkingRepo.unlink` is not
under the sources): remove the link record; fails with `NotLinked` when no
link record exists. -/
def WorkingRepo.unlink (st : PlyState) : OpResult :=
  match st.workingRepo.link_target with
  | none => .err .NotLinked st
  | some _ =>
    .ok { st with workingRepo := { st.workingRepo with link_target := none } }

/-- Modelled from the spec (§4.2, `plypatch.WorkingRepo.save` is not under
the sources): converts the commit range into patches (`newPatches`, in
commit order, supplied by the version-control engine's `diff_range`),
appends them to the Series and counts them as applied.  The
`UncommittedChanges` precondition is validated before any mutation
(spec §7). -/
def WorkingRepo.save (newPatches : List Patch) (st : PlyState) : OpResult :=
  if st.workingRepo.dirty then .err .UncommittedChanges st
  else
    .ok { workingRepo := { st.workingRepo with
            applied_count := st.workingRepo.applied_count + newPatches.length },
          series := st.series ++ newPatches }

/-- Modelled from the spec (§4.2): the apply loop of `restore` — applies
the given (remaining) series entries strictly in order; a clean apply is
committed and counted, the first conflicted apply sets the conflict marker
and stops the loop, returning `true` in the second component. -/
def restoreLoop (cleanly : Patch → Bool) : WorkingRepo → List Patch → WorkingRepo × Bool
  | w, [] => (w, false)
  | w, p :: rest =>
    if cleanly p then
      restoreLoop cleanly { w with applied_count := w.applied_count + 1 } rest
    else ({ w with conflictMarker := true }, true)

/-- Modelled from the spec (§4.2): the series entries an execution of the
apply loop actually attempts — every clean patch up to and including the
first conflicting one. -/
def attemptedPatches (cleanly : Patch → Bool) : List Patch → List Patch
  | [] => []
  | p :: rest =>
    if cleanly p then p :: attemptedPatches cleanly rest else [p]

/-- Modelled from the spec (§4.2, `plypatch.WorkingRepo.restore` is not
under the sources): validates the `UncommittedChanges` precondition before
any mutation, then applies the remaining Series entries in order; on a
conflicted apply it stops with `PatchDidNotApplyCleanly`, leaving the
partially-applied, conflict-marked state.  The engine's
`apply → Clean | Conflicted` outcome is the oracle `cleanly`. -/
def WorkingRepo.restore (cleanly : Patch → Bool) (st : PlyState) : OpResult :=
  if st.workingRepo.dirty then .err .UncommittedChanges st
  else
    match restoreLoop cleanly st.workingRepo
        (st.series.drop st.workingRepo.applied_count) with
    | (w, true) => .err .PatchDidNotApplyCleanly { workingRepo := w, series := st.series }
    | (w, false) => .ok { workingRepo := w, series := st.series }

/-- Modelled from the spec (§4.2 `resolve()`): the state change before the
restore semantics resume — the current (conflicting) patch's content is
regenerated from the staged diff, the result committed (so the tree is no
longer dirty), `applied_count` incremented and the conflict marker
cleared. -/
def resolvePrep (newContent : String) (st : PlyState) : PlyState :=
  let i := st.workingRepo.applied_count
  let series :=
    match st.series.get? i with
    | some p => st.series.set i { p with content := newContent }
    | none => st.series
  { workingRepo := { st.workingRepo with
      applied_count := i + 1, conflictMarker := false, dirty := false },
    series := series }

/-- Modelled from the spec (§4.2, `plypatch.WorkingRepo.resolve` is not
under the sources): only valid from CONFLICT; rewrites the current patch
from the staged resolution, commits it, then resumes restore semantics for
the remaining Series entries. -/
def WorkingRepo.resolve (newContent : String) (cleanly : Patch → Bool)
    (st : PlyState) : OpResult :=
  WorkingRepo.restore cleanly (resolvePrep newContent st)

/-- Modelled from the spec (§4.2 `skip()`): the state change before the
restore semantics resume — the current (conflicting) patch is removed from
the Series, the tree's conflict markers reverted and the conflict marker
cleared; `applied_count` is unchanged. -/
def skipPrep (st : PlyState) : PlyState :=
  { workingRepo := { st.workingRepo with conflictMarker := false, dirty := false },
    series := st.series.eraseIdx st.workingRepo.applied_count }

/-- Modelled from the spec (§4.2, `plypatch.WorkingRepo.skip` is not under
the sources): only valid from CONFLICT; drops the conflicting patch
permanently and resumes applying the remaining Series entries as in
`resolve`. -/
def WorkingRepo.skip (cleanly : Patch → Bool) (st : PlyState) : OpResult :=
  WorkingRepo.restore cleanly (skipPrep st)

/-- Modelled from the spec (§4.2, `plypatch.WorkingRepo.rollback` is not
under the sources): reverts the tree to the commit predating the first
applied patch and resets `applied_count` to 0.  Preconditions are
validated before any mutation (spec §7); the dirty-tree check comes first,
as §8 requires `rollback` to fail with `UncommittedChanges` whenever the
tree is dirty. -/
def WorkingRepo.rollback (st : PlyState) : OpResult :=
  if st.workingRepo.dirty then .err .UncommittedChanges st
  else if st.workingRepo.applied_count = 0 then .err .NoPatchesApplied st
  else
    .ok { st with workingRepo := { st.workingRepo with applied_count := 0 } }

/-! ## The CLI dispatch layer, embedded from `src/plypatch/cli.py` -/

/-- A terminated process: the text printed and the exit status. -/
structure ProcessExit where
  message : String
  code : Nat
  deriving DecidableEq, Repr

/-- `die` from `src/plypatch/cli.py` (lines 11-13): print the message and
exit with status 1. -/
def die (msg : String) : ProcessExit := ⟨msg, 1⟩

/-- `die_on_conflicts` from `src/plypatch/cli.py` (lines 16-23): the
operator guidance printed when a patch did not apply cleanly, followed by
exit status 1. -/
def conflictGuidance : ProcessExit :=
  die ("Patch did not apply cleanly. To fix:\n\n" ++
       "\t1) Fix conflicts in affected files\n" ++
       "\n\t2) `git add` affected files\n" ++
       "\n\t3) Run `ply resolve` to refresh the patch and" ++
       " apply the rest\n\t   of the patches in the series.")

/-- `die_on_uncommitted_changes` from `src/plypatch/cli.py`
(lines 26-27). -/
def uncommittedChangesExit : ProcessExit :=
  die "ERROR: Uncommitted changes, commit or discard before continuing."

/-- Outcome of a CLI command's `do` method: normal return, a `die` (message
printed, exit 1), or an exception escaping the method uncaught. -/
inductive CliOutcome where
  | ok
  | died (exit : ProcessExit)
  | propagated (e : ExcKind)
  deriving DecidableEq, Repr

/-- The twelve CLI sub-commands registered in `COMMANDS` in
`src/plypatch/cli.py` (lines 211-213). -/
inductive Cmd where
  | abort
  | check
  | graph
  | init
  | link
  | resolve
  | restore
  | rollback
  | save
  | skip
  | status
  | unlink
  deriving DecidableEq, Repr

/-- The try/except structure of each CLI command's `do` method in
`src/plypatch/cli.py`, as a translation from the outcome of the wrapped
engine call to the process outcome: an exception kind named in one of the
method's `except` clauses is translated via `die`/`die_on_conflicts`; any
other exception propagates uncaught.  `abort`, `check`, `graph`, `init`
and `status` have no `except` clause at all. -/
def cmdDo : Cmd → Except ExcKind Unit → CliOutcome
  | _, .ok _ => .ok
  | .abort, .error e => .propagated e
  | .check, .error e => .propagated e
  | .graph, .error e => .propagated e
  | .init, .error e => .propagated e
  | .link, .error .AlreadyLinked => .died (die "Already linked to a patch-repo")
  | .link, .error e => .propagated e
  | .resolve, .error .PatchDidNotApplyCleanly => .died conflictGuidance
  | .resolve, .error e => .propagated e
  | .restore, .error .UncommittedChanges => .died uncommittedChangesExit
  | .restore, .error .PatchDidNotApplyCleanly => .died conflictGuidance
  | .restore, .error e => .propagated e
  | .rollback, .error .NoPatchesApplied =>
    .died (die "ERROR: cannot rollback, no patches applied")
  | .rollback, .error .UncommittedChanges => .died uncommittedChangesExit
  | .rollback, .error e => .propagated e
  | .save, .error .UncommittedChanges => .died uncommittedChangesExit
  | .save, .error e => .propagated e
  | .skip, .error .PatchDidNotApplyCleanly => .died conflictGuidance
  | .skip, .error e => .propagated e
  | .status, .error e => .propagated e
  | .unlink, .error .NotLinked => .died (die "Not linked to a patch-repo")
  | .unlink, .error e => .propagated e

/-- `StatusCommand.do` from `src/plypatch/cli.py` (lines 185-197): branch
on the working-repo's status string and `die` with the matching
description — every branch ends in `die`, so the process exits with
status 1 also in the two non-error states. -/
def statusCommand (status : String) : ProcessExit :=
  if status = "restore-in-progress" then
    die "Restore in progress, use skip or resolve to continue"
  else if status = "no-patches-applied" then die "No patches applied"
  else die "All patches applied"

/-- The failure kinds the spec (§4.2, §7) names for the engine operation
behind each CLI command (`RepoAlreadyInit` stands for the spec's
`RepoAlreadyInitialized` kind).  The spec names no kinds for `abort`,
`check`, `graph` and `status`. -/
def specRaisedKinds : Cmd → List ExcKind
  | .abort => []
  | .check => []
  | .graph => []
  | .init => [.RepoAlreadyInit]
  | .link => [.AlreadyLinked]
  | .resolve => [.PatchDidNotApplyCleanly]
  | .restore => [.UncommittedChanges, .PatchDidNotApplyCleanly]
  | .rollback => [.NoPatchesApplied, .UncommittedChanges]
  | .save => [.UncommittedChanges]
  | .skip => [.PatchDidNotApplyCleanly]
  | .status => []
  | .unlink => [.NotLinked]

/-- The list of all twelve commands, in the order of `COMMANDS` in
`src/plypatch/cli.py`. -/
def allCmds : List Cmd :=
  [.abort, .check, .graph, .init, .link, .resolve, .restore, .rollback,
   .save, .skip, .status, .unlink]

/-- Whether a CLI outcome is a `die` (the failure was caught and translated
into an operator-facing message). -/
def CliOutcome.isDied : CliOutcome → Bool
  | .died _ => true
  | _ => false

/-! ## Shared sample states used by the concrete witnesses -/

/-- A linked, clean working-repo with no patches applied. -/
def cleanEmptyState : PlyState :=
  ⟨⟨some "patch-repo", 0, false, false, true⟩, []⟩

/-- A linked working-repo whose tree has uncommitted changes. -/
def dirtyState : PlyState :=
  ⟨⟨some "patch-repo", 0, false, true, true⟩, []⟩

/-- An unlinked working-repo. -/
def unlinkedState : PlyState :=
  ⟨⟨none, 0, false, false, true⟩, []⟩

/-! ## Claims -/

/-- C1: every value of the status query is one of the four labels
`unlinked`, `clean-no-patches`, `clean-all-applied` and
`restore-in-progress`, and in the CONFLICT state the reported label is
`restore-in-progress`, distinct from either CLEAN sub-state label. -/
theorem status_reports_four_labels (w : WorkingRepo) :
    (w.status = "unlinked" ∨ w.status = "clean-no-patches" ∨
     w.status = "clean-all-applied" ∨ w.status = "restore-in-progress") ∧
    (w.machineState = .CONFLICT →
      w.status = "restore-in-progress" ∧ w.status ≠ "clean-no-patches" ∧
      w.status ≠ "clean-all-applied") := by
  unfold WorkingRepo.status WorkingRepo.machineState
  cases h : w.link_target with
  | none => simp
  | some q =>
    by_cases hc : w.conflictMarker <;> by_cases ha : w.applied_count = 0 <;>
      simp [hc, ha]

/-- C1 witness: a conflicted working-repo is in the CONFLICT machine state
and reports `restore-in-progress`. -/
theorem status_reports_four_labels_witness :
    (⟨some "patch-repo", 1, true, false, true⟩ : WorkingRepo).machineState =
      .CONFLICT ∧
    (⟨some "patch-repo", 1, true, false, true⟩ : WorkingRepo).status =
      "restore-in-progress" :=
  ⟨rfl,
   ((status_reports_four_labels ⟨some "patch-repo", 1, true, false, true⟩).2
      rfl).1⟩

/-- C9: the `status` CLI command exits with status 1 for every status
string the working-repo can report — including the two non-error
descriptions `No patches applied` and `All patches applied` — after
printing the branch's description. -/
theorem statusCommand_always_exits_one :
    (∀ s, (statusCommand s).code = 1) ∧
    statusCommand "restore-in-progress" =
      die "Restore in progress, use skip or resolve to continue" ∧
    statusCommand "no-patches-applied" = die "No patches applied" ∧
    statusCommand "all-patches-applied" = die "All patches applied" := by
  refine ⟨fun s => ?_, rfl, rfl, rfl⟩
  unfold statusCommand
  split
  · rfl
  · split <;> rfl

/-- C10: the `init` and `abort` commands catch no exception — every failure
kind propagates uncaught, in particular `init`'s spec-named
`RepoAlreadyInitialized` kind — while every other command translates each
failure kind the spec names for its operation into a `die`. -/
theorem init_abort_propagate_failures :
    (∀ e, cmdDo .init (.error e) = .propagated e) ∧
    (∀ e, cmdDo .abort (.error e) = .propagated e) ∧
    specRaisedKinds .init = [.RepoAlreadyInit] ∧
    (allCmds.all (fun c =>
      decide (c = .init) || decide (c = .abort) ||
      (specRaisedKinds c).all (fun e => (cmdDo c (.error e)).isDied)) = true) := by
  refine ⟨fun e => ?_, fun e => ?_, rfl, rfl⟩
  · cases e <;> rfl
  · cases e <;> rfl

/-- C3: when the tree has uncommitted changes, `save`, `restore` and
`rollback` each fail with the `UncommittedChanges` kind and return the
state unchanged — no mutation of the tree, the Series or the persisted
counters. -/
theorem dirty_tree_blocks_mutation (cleanly : Patch → Bool)
    (newPatches : List Patch) (st : PlyState)
    (h : st.workingRepo.dirty = true) :
    WorkingRepo.save newPatches st = .err .UncommittedChanges st ∧
    WorkingRepo.restore cleanly st = .err .UncommittedChanges st ∧
    WorkingRepo.rollback st = .err .UncommittedChanges st := by
  unfold WorkingRepo.save WorkingRepo.restore WorkingRepo.rollback
  simp [h]

/-- C3 witness: on a concrete dirty state all three operations fail with
`UncommittedChanges` and return the state unchanged. -/
theorem dirty_tree_blocks_mutation_witness :
    dirtyState.workingRepo.dirty = true ∧
    WorkingRepo.save [] dirtyState = .err .UncommittedChanges dirtyState ∧
    WorkingRepo.restore (fun _ => true) dirtyState =
      .err .UncommittedChanges dirtyState ∧
    WorkingRepo.rollback dirtyState = .err .UncommittedChanges dirtyState :=
  ⟨rfl, dirty_tree_blocks_mutation (fun _ => true) [] dirtyState rfl⟩

/-- C5 counterexample: on a state with `applied_count = 0` whose tree is
dirty, `rollback` fails with `UncommittedChanges`, not with
`NoPatchesApplied` — the claim's "NoPatchesApplied whenever
applied_count == 0" does not hold there (no single result can carry both
kinds). -/
theorem rollback_zero_dirty_counterexample :
    dirtyState.workingRepo.applied_count = 0 ∧
    dirtyState.workingRepo.dirty = true ∧
    WorkingRepo.rollback dirtyState = .err .UncommittedChanges dirtyState ∧
    WorkingRepo.rollback dirtyState ≠ .err .NoPatchesApplied dirtyState := by
  refine ⟨rfl, rfl, rfl, ?_⟩
  decide

/-- C5 (amended): `rollback` fails with `UncommittedChanges` whenever the
tree is dirty, and with `NoPatchesApplied` whenever the tree is clean and
`applied_count = 0`; in both cases the state is returned unchanged, so the
operation has no side effects. -/
theorem rollback_preconditions (st : PlyState) :
    (st.workingRepo.dirty = true →
      WorkingRepo.rollback st = .err .UncommittedChanges st) ∧
    (st.workingRepo.dirty = false → st.workingRepo.applied_count = 0 →
      WorkingRepo.rollback st = .err .NoPatchesApplied st) := by
  unfold WorkingRepo.rollback
  constructor
  · intro h; simp [h]
  · intro h h0; simp [h, h0]

/-- C5 witness: on a concrete clean state with no patches applied,
`rollback` fails with `NoPatchesApplied` and returns the state
unchanged. -/
theorem rollback_preconditions_witness :
    cleanEmptyState.workingRepo.dirty = false ∧
    cleanEmptyState.workingRepo.applied_count = 0 ∧
    WorkingRepo.rollback cleanEmptyState =
      .err .NoPatchesApplied cleanEmptyState :=
  ⟨rfl, rfl, (rollback_preconditions cleanEmptyState).2 rfl rfl⟩

/-- C6: `link` fails with `AlreadyLinked` from any linked state — also when
the requested path equals the current link target — leaving the state
unchanged; from the unlinked state it succeeds, and the machine moves from
UNLINKED to CLEAN. -/
theorem link_requires_unlinked (st : PlyState) (path : String) :
    (∀ q, st.workingRepo.link_target = some q →
      WorkingRepo.link path st = .err .AlreadyLinked st ∧
      WorkingRepo.link q st = .err .AlreadyLinked st) ∧
    (st.workingRepo.link_target = none → st.workingRepo.conflictMarker = false →
      st.workingRepo.machineState = .UNLINKED ∧
      WorkingRepo.link path st =
        .ok ⟨{ st.workingRepo with link_target := some path }, st.series⟩ ∧
      ({ st.workingRepo with link_target := some path } :
          WorkingRepo).machineState = .CLEAN) := by
  unfold WorkingRepo.link WorkingRepo.machineState
  constructor
  · intro q hq
    rw [hq]
    exact ⟨rfl, rfl⟩
  · intro hnone hc
    rw [hnone]
    exact ⟨rfl, rfl, by simp [hc]⟩

/-- C6 witness: a repo linked to `patch-repo` refuses `link` with
`AlreadyLinked` even for the identical path, and an unlinked repo accepts
it, landing in CLEAN. -/
theorem link_requires_unlinked_witness :
    cleanEmptyState.workingRepo.link_target = some "patch-repo" ∧
    WorkingRepo.link "patch-repo" cleanEmptyState =
      .err .AlreadyLinked cleanEmptyState ∧
    unlinkedState.workingRepo.link_target = none ∧
    WorkingRepo.link "patch-repo" unlinkedState =
      .ok ⟨⟨some "patch-repo", 0, false, false, true⟩, []⟩ :=
  ⟨rfl,
   ((link_requires_unlinked cleanEmptyState "other").1 "patch-repo" rfl).2,
   rfl,
   ((link_requires_unlinked unlinkedState "patch-repo").2 rfl rfl).2.1⟩

/-- C7: `unlink` fails with `NotLinked` when no link record exists (state
unchanged), and from the CLEAN state it succeeds, moving the machine to
UNLINKED. -/
theorem unlink_requires_linked (st : PlyState) :
    (st.workingRepo.link_target = none →
      WorkingRepo.unlink st = .err .NotLinked st) ∧
    (st.workingRepo.machineState = .CLEAN →
      WorkingRepo.unlink st =
        .ok ⟨{ st.workingRepo with link_target := none }, st.series⟩ ∧
      ({ st.workingRepo with link_target := none } :
          WorkingRepo).machineState = .UNLINKED) := by
  unfold WorkingRepo.unlink WorkingRepo.machineState
  constructor
  · intro hnone; rw [hnone]
  · intro hclean
    cases h : st.workingRepo.link_target with
    | none => rw [h] at hclean; exact absurd hclean (by simp)
    | some q => exact ⟨rfl, rfl⟩

/-- C7 witness: an unlinked repo refuses `unlink` with `NotLinked`; a
linked clean repo unlinks into the UNLINKED state. -/
theorem unlink_requires_linked_witness :
    unlinkedState.workingRepo.link_target = none ∧
    WorkingRepo.unlink unlinkedState = .err .NotLinked unlinkedState ∧
    cleanEmptyState.workingRepo.machineState = .CLEAN ∧
    WorkingRepo.unlink cleanEmptyState =
      .ok ⟨⟨none, 0, false, false, true⟩, []⟩ :=
  ⟨rfl, (unlink_requires_linked unlinkedState).1 rfl, rfl,
   ((unlink_requires_linked cleanEmptyState).2 rfl).1⟩

/-- The `missing_file` error class is exactly the Series entries without a
file. -/
theorem mem_missing_file (series files : List String) (x : String) :
    x ∈ series.filter (fun n => !files.contains n) ↔
      (x ∈ series ∧ x ∉ files) := by
  simp [List.mem_filter, List.elem_iff]

/-- The `orphan_file` error class is exactly the files without a Series
entry. -/
theorem mem_orphan_file (series files : List String) (x : String) :
    x ∈ files.filter (fun f => !series.contains f) ↔
      (x ∈ files ∧ x ∉ series) := by
  simp [List.mem_filter, List.elem_iff]

/-- The `missing_file` class is empty exactly when every Series entry has a
file. -/
theorem missing_file_nil_iff (series files : List String) :
    series.filter (fun n => !files.contains n) = [] ↔
      ∀ n ∈ series, n ∈ files := by
  rw [List.eq_nil_iff_forall_not_mem]
  constructor
  · intro h n hn
    by_contra hnf
    exact h n ((mem_missing_file series files n).mpr ⟨hn, hnf⟩)
  · intro h x hx
    obtain ⟨hs, hf⟩ := (mem_missing_file series files x).mp hx
    exact hf (h x hs)

/-- The `orphan_file` class is empty exactly when every file has a Series
entry. -/
theorem orphan_file_nil_iff (series files : List String) :
    files.filter (fun f => !series.contains f) = [] ↔
      ∀ f ∈ files, f ∈ series := by
  rw [List.eq_nil_iff_forall_not_mem]
  constructor
  · intro h f hf
    by_contra hfs
    exact h f ((mem_orphan_file series files f).mpr ⟨hf, hfs⟩)
  · intro h x hx
    obtain ⟨hf, hs⟩ := (mem_orphan_file series files x).mp hx
    exact hs (h x hf)

/-- C2: `check()` reports `ok` exactly when every Series entry has a
matching file and every file a matching Series entry; otherwise the
report's two lists are exactly the two error classes — `missing_file`
(named in Series, no file on disk) and `orphan_file` (file on disk, not
named in Series) — and the two classes are disjoint. -/
theorem check_report_classes (series files : List String) :
    (check_patch_repo series files = .ok ↔
      ((∀ n ∈ series, n ∈ files) ∧ (∀ f ∈ files, f ∈ series))) ∧
    (∀ m o, check_patch_repo series files = .inconsistent m o →
      (∀ x, x ∈ m ↔ (x ∈ series ∧ x ∉ files)) ∧
      (∀ x, x ∈ o ↔ (x ∈ files ∧ x ∉ series)) ∧
      (∀ x, x ∈ m → x ∉ o)) := by
  simp only [check_patch_repo]
  split_ifs with hcond
  · constructor
    · refine ⟨fun _ => ?_, fun _ => rfl⟩
      exact ⟨(missing_file_nil_iff series files).mp hcond.1,
             (orphan_file_nil_iff series files).mp hcond.2⟩
    · intro m o hmo
      exact absurd hmo (by simp)
  · constructor
    · constructor
      · intro h
        exact absurd h (by simp)
      · rintro ⟨h1, h2⟩
        exact absurd ⟨(missing_file_nil_iff series files).mpr h1,
                      (orphan_file_nil_iff series files).mpr h2⟩ hcond
    · intro m o hmo
      injection hmo with hm' ho'
      subst hm'
      subst ho'
      refine ⟨mem_missing_file series files, mem_orphan_file series files,
              fun x hx hxo => ?_⟩
      exact ((mem_missing_file series files x).mp hx).2
        ((mem_orphan_file series files x).mp hxo).1

/-- C2 witness: on a concrete divergent repo the report carries exactly the
Series entry without a file and the file without a Series entry, and the
element of the first class is not in the second. -/
theorem check_report_classes_witness :
    check_patch_repo ["a", "b"] ["b", "c"] = .inconsistent ["a"] ["c"] ∧
    "a" ∈ (["a"] : List String) ∧
    "a" ∉ (["c"] : List String) :=
  ⟨rfl, by decide,
   ((check_report_classes ["a", "b"] ["b", "c"]).2 ["a"] ["c"] rfl).2.2 "a"
     (by decide)⟩

/-- The apply loop commits each clean patch and stops at the first
conflicting one: with `k` clean entries before the first conflicting
entry, it ends with `applied_count` grown by exactly `k` and the conflict
marker set. -/
theorem restoreLoop_stops (cleanly : Patch → Bool) :
    ∀ (l : List Patch) (k : Nat) (p : Patch) (w : WorkingRepo),
      (∀ q ∈ l.take k, cleanly q = true) → l.get? k = some p →
      cleanly p = false →
      restoreLoop cleanly w l =
        ({ w with
            applied_count := w.applied_count + k
            conflictMarker := true }, true) := by
  intro l
  induction l with
  | nil =>
    intro k p w _ hget _
    simp at hget
  | cons q rest ih =>
    intro k p w htake hget hfail
    cases k with
    | zero =>
      have hq : q = p := by simpa using hget
      subst hq
      simp [restoreLoop, hfail]
    | succ k' =>
      have hq : cleanly q = true := htake q (by simp)
      have hrest := ih k' p { w with applied_count := w.applied_count + 1 }
        (fun r hr => htake r (by simp [hr]))
        (by simpa using hget) hfail
      simp only [restoreLoop, hq, if_true]
      rw [hrest]
      simp [WorkingRepo.mk.injEq]
      omega

/-- The entries the apply loop attempts are exactly the series up to and
including the first conflicting one. -/
theorem attemptedPatches_take (cleanly : Patch → Bool) :
    ∀ (l : List Patch) (k : Nat) (p : Patch),
      (∀ q ∈ l.take k, cleanly q = true) → l.get? k = some p →
      cleanly p = false →
      attemptedPatches cleanly l = l.take (k + 1) := by
  intro l
  induction l with
  | nil =>
    intro k p _ hget _
    simp at hget
  | cons q rest ih =>
    intro k p htake hget hfail
    cases k with
    | zero =>
      have hq : q = p := by simpa using hget
      subst hq
      simp [attemptedPatches, hfail]
    | succ k' =>
      have hq : cleanly q = true := htake q (by simp)
      simp only [attemptedPatches, hq, if_true, List.take_succ_cons,
        List.cons.injEq, true_and]
      exact ih k' p (fun r hr => htake r (by simp [hr]))
        (by simpa using hget) hfail

/-- C4: during restore, the first patch that fails to apply cleanly stops
the series — the clean entries before it are committed and counted, the
conflict marker is set (state CONFLICT), and `PatchDidNotApplyCleanly` is
the surfaced result; the attempted entries are exactly the series up to
and including the first failing patch, so the remaining patches are not
attempted and the failing patch is attempted once, never retried.
Resuming via resolve/skip is exactly the restore semantics after their
state preparation, and the CLI translates `PatchDidNotApplyCleanly` for
restore, resolve and skip into the fixed resolve-guidance message. -/
theorem restore_stops_at_first_conflict (cleanly : Patch → Bool)
    (st : PlyState) (k : Nat) (p : Patch)
    (hdirty : st.workingRepo.dirty = false)
    (htake : ∀ q ∈ (st.series.drop st.workingRepo.applied_count).take k,
      cleanly q = true)
    (hget : (st.series.drop st.workingRepo.applied_count).get? k = some p)
    (hfail : cleanly p = false) :
    WorkingRepo.restore cleanly st =
      .err .PatchDidNotApplyCleanly
        ⟨{ st.workingRepo with
             applied_count := st.workingRepo.applied_count + k
             conflictMarker := true }, st.series⟩ ∧
    attemptedPatches cleanly (st.series.drop st.workingRepo.applied_count) =
      (st.series.drop st.workingRepo.applied_count).take (k + 1) ∧
    (∀ q, st.workingRepo.link_target = some q →
      ({ st.workingRepo with
           applied_count := st.workingRepo.applied_count + k
           conflictMarker := true } : WorkingRepo).machineState = .CONFLICT) ∧
    (∀ newContent st2, WorkingRepo.resolve newContent cleanly st2 =
      WorkingRepo.restore cleanly (resolvePrep newContent st2)) ∧
    (∀ st2, WorkingRepo.skip cleanly st2 =
      WorkingRepo.restore cleanly (skipPrep st2)) ∧
    cmdDo .restore (.error .PatchDidNotApplyCleanly) = .died conflictGuidance ∧
    cmdDo .resolve (.error .PatchDidNotApplyCleanly) = .died conflictGuidance ∧
    cmdDo .skip (.error .PatchDidNotApplyCleanly) = .died conflictGuidance := by
  refine ⟨?_, attemptedPatches_take cleanly _ k p htake hget hfail,
    fun q hq => by simp [WorkingRepo.machineState, hq],
    fun _ _ => rfl, fun _ => rfl, rfl, rfl, rfl⟩
  simp only [WorkingRepo.restore, hdirty, Bool.false_eq_true, if_false]
  rw [restoreLoop_stops cleanly _ k p _ htake hget hfail]
  simp [hdirty]

/-- The sample apply oracle: every patch applies cleanly except the one
named `b`. -/
def sampleCleanly : Patch → Bool := fun p => p.name != "b"

/-- Sample patch `a` (applies cleanly). -/
def patchA : Patch := ⟨"a", "diff-a", none, []⟩

/-- Sample patch `b` (conflicts under `sampleCleanly`). -/
def patchB : Patch := ⟨"b", "diff-b", none, ["a"]⟩

/-- Sample patch `c`, after the conflicting one. -/
def patchC : Patch := ⟨"c", "diff-c", none, []⟩

/-- A linked clean repo about to restore the three-patch series. -/
def restoreStart : PlyState :=
  ⟨⟨some "patch-repo", 0, false, false, true⟩, [patchA, patchB, patchC]⟩

/-- C4 witness: on the concrete series `[a, b, c]` where `b` conflicts,
restore commits `a`, stops at `b` with `PatchDidNotApplyCleanly` and the
conflict marker set, and the attempted entries are exactly `[a, b]` — `c`
is not attempted. -/
theorem restore_stops_at_first_conflict_witness :
    sampleCleanly patchB = false ∧
    WorkingRepo.restore sampleCleanly restoreStart =
      .err .PatchDidNotApplyCleanly
        ⟨⟨some "patch-repo", 1, true, false, true⟩,
         [patchA, patchB, patchC]⟩ ∧
    attemptedPatches sampleCleanly [patchA, patchB, patchC] =
      [patchA, patchB] := by
  have h := restore_stops_at_first_conflict sampleCleanly restoreStart 1 patchB
    rfl (by decide) rfl (by decide)
  exact ⟨by decide, h.1, h.2.1⟩

/-- C8: the dependency graph over patch names has exactly one
"depends on" edge per (patch, dependency) pair taken from the patches'
`depends_on` sets, and the DOT rendering involves no cycle detection — on
a cyclic two-patch input it returns the explicit DOT text below instead of
failing. -/
theorem dependency_graph_renders (patches : List Patch) (p d : String) :
    ((p, d) ∈ dependencyEdges patches ↔
      ∃ q ∈ patches, q.name = p ∧ d ∈ q.depends_on) ∧
    dependencyEdges
      [⟨"a", "diff-a", none, ["b"]⟩, ⟨"b", "diff-b", none, ["a"]⟩] =
      [("a", "b"), ("b", "a")] ∧
    patch_dependency_dot_graph
      [⟨"a", "diff-a", none, ["b"]⟩, ⟨"b", "diff-b", none, ["a"]⟩] =
      "digraph patches \x7b\n  \"a\";\n  \"b\";\n  \"a\" -> \"b\";\n" ++
      "  \"b\" -> \"a\";\n\x7d\n" := by
  refine ⟨?_, rfl, rfl⟩
  unfold dependencyEdges
  rw [List.mem_flatMap]
  constructor
  · rintro ⟨q, hq, hm⟩
    rw [List.mem_map] at hm
    obtain ⟨e, he, heq⟩ := hm
    injection heq with h1 h2
    subst h1
    subst h2
    exact ⟨q, hq, rfl, he⟩
  · rintro ⟨q, hq, hname, hd⟩
    exact ⟨q, hq, List.mem_map.mpr ⟨d, hd, by rw [hname]⟩⟩
